import Mathlib

/-!
Shallow embedding of the SCPI power-supply controller `PSWController`
from `src/main.py` and `src/ver2.py` (the two controller classes are
near-identical; `ver2.py` extends `main.py` with remote/local, OVP/OCP
and protection-status operations, so the embedding below follows
`ver2.py`, whose basic operations are textually the same as `main.py`).

Modelling conventions:
* Python `float` values are modelled as exact rationals `ℚ` (every value
  appearing in the verified claims is an exact decimal, where IEEE-754
  doubles and `ℚ` agree on formatting and parsing at 4 fractional digits).
* The `pyserial` handle `self.ser` is modelled as `Option FakeSerial`:
  `none` is Python `None`; a `FakeSerial` carries its `is_open` flag, a
  flag `writeOk` saying whether the next `ser.write` succeeds (a write
  fault raises `SerialException` in pyserial, modelled as `ioError`), the
  scripted byte lines that successive `ser.readline()` calls return
  (an exhausted script models a read timeout returning `b""`), and the
  transcript of lines written so far.
* Python exceptions are modelled with `Except PSWError`; every operation
  also returns the post-state, because a raised exception does not roll
  back attribute mutations already performed on the Python object.
  Error names follow the spec taxonomy: the `RuntimeError("Serial port
  not open")` raised by `_write`/`_readline` is `notConnected`; the
  `ValueError` escaping from `int(...)`/`float(...)` in
  `get_protection_status`/`get_ovp`/`get_ocp` is `protocolError`.
-/

/-- Whitespace characters stripped by Python `str.strip()` (restricted to
the ASCII range, which is all that `decode("ascii", errors="ignore")`
can produce): TAB, LF, VT, FF, CR, FS, GS, RS, US, SPACE. -/
def pyIsSpaceChar (c : Char) : Bool :=
  c.toNat == 9 || c.toNat == 10 || c.toNat == 11 || c.toNat == 12 ||
  c.toNat == 13 || (28 ≤ c.toNat && c.toNat ≤ 32)

/-- Python `str.strip()`: drop leading and trailing whitespace. -/
def stripChars (l : List Char) : List Char :=
  ((l.dropWhile pyIsSpaceChar).reverse.dropWhile pyIsSpaceChar).reverse

/-- Python `bytes.decode("ascii", errors="ignore")`: bytes ≥ 0x80 are
dropped rather than raising; the rest map to their ASCII characters. -/
def decodeAsciiIgnore (bs : List Nat) : List Char :=
  (bs.filter (fun b => b < 128)).map Char.ofNat

/-- Reply-line post-processing performed by `PSWController._readline`
(`src/ver2.py` line 60): `raw.decode("ascii", errors="ignore").strip()`. -/
def processLine (bs : List Nat) : String :=
  String.mk (stripChars (decodeAsciiIgnore bs))

/-- ASCII bytes of a string, as sent over the serial line by the
instrument (statement vocabulary for scripting the fake transport). -/
def asciiBytes (s : String) : List Nat :=
  s.data.map Char.toNat

/-- Optional leading sign accepted by Python `float()` / `int()`:
returns (isNegative, rest). -/
def parseSign : List Char → Bool × List Char
  | '+' :: r => (false, r)
  | '-' :: r => (true, r)
  | l => (false, l)

/-- Numeric value of a list of decimal digit characters. -/
def digitsVal (ds : List Char) : Nat :=
  ds.foldl (fun a c => 10 * a + (c.toNat - 48)) 0

/-- Exponent suffix of a Python float literal: either nothing, or
`e`/`E`, an optional sign and a nonempty run of digits consuming the
whole remainder. -/
def parseExpPart (l : List Char) : Option Int :=
  match l with
  | [] => some 0
  | c :: rest =>
    if c == 'e' || c == 'E' then
      let (neg, r) := parseSign rest
      if r.isEmpty || !(r.all Char.isDigit) then none
      else some (if neg then -(digitsVal r : Int) else (digitsVal r : Int))
    else none

/-- Syntactic part of Python `float(s)` on finite decimal literals:
strips whitespace, then accepts `[sign] (digits [. digits] | . digits)
[(e|E) [sign] digits]` with nothing left over, returning
(isNegative, mantissa digits value, number of fractional digits,
exponent).  The special tokens `inf`/`nan` and digit-group underscores
are not modelled; no claim involves them (non-finite values have no
image in the exact-rational model). -/
def pyFloatParts (s : String) : Option (Bool × Nat × Nat × Int) :=
  let l := stripChars s.data
  let (neg, l1) := parseSign l
  let ip := l1.takeWhile Char.isDigit
  let r1 := l1.dropWhile Char.isDigit
  match r1 with
  | '.' :: r2 =>
    let fp := r2.takeWhile Char.isDigit
    let r3 := r2.dropWhile Char.isDigit
    if ip.isEmpty && fp.isEmpty then none
    else
      match parseExpPart r3 with
      | some e => some (neg, digitsVal (ip ++ fp), fp.length, e)
      | none => none
  | _ =>
    if ip.isEmpty then none
    else
      match parseExpPart r1 with
      | some e => some (neg, digitsVal ip, 0, e)
      | none => none

/-- Ten to an integer power, as a rational. -/
def tenPow (e : Int) : ℚ :=
  if 0 ≤ e then (10 : ℚ) ^ e.toNat else 1 / (10 : ℚ) ^ (-e).toNat

/-- Rational value of the parts produced by `pyFloatParts`. -/
def ratOfParts : Bool × Nat × Nat × Int → ℚ :=
  fun (neg, m, k, e) =>
    (if neg then -1 else 1) * ((m : ℚ) / 10 ^ k * tenPow e)

/-- Python `float(s)` on finite decimal literals, valued in `ℚ`. -/
def pyFloat (s : String) : Option ℚ :=
  (pyFloatParts s).map ratOfParts

/-- Python `int(s)` (base 10): strips whitespace, then an optional sign
and a nonempty all-digit remainder; anything else raises `ValueError`
(modelled as `none`).  Digit-group underscores are not modelled. -/
def pyInt (s : String) : Option Int :=
  let l := stripChars s.data
  let (neg, l1) := parseSign l
  if l1.isEmpty || !(l1.all Char.isDigit) then none
  else some (if neg then -(digitsVal l1 : Int) else (digitsVal l1 : Int))

/-- Python `str.split(",")` with a one-character separator: splits at
every comma and keeps empty fields (`"".split(",") == [""]`). -/
def splitOnCommaAux : List Char → List Char → List String
  | [], acc => [String.mk acc.reverse]
  | c :: rest, acc =>
    if c == ',' then String.mk acc.reverse :: splitOnCommaAux rest []
    else splitOnCommaAux rest (c :: acc)

/-- Python `s.split(",")`. -/
def splitOnComma (s : String) : List String :=
  splitOnCommaAux s.data []

/-- Floor of a rational (its denominator is positive, so Euclidean
division of numerator by denominator is floor division). -/
def ratFloor (q : ℚ) : Int :=
  Int.ediv q.num q.den

/-- Nearest integer with ties to even, the rounding used by Python's
fixed-point float formatting. -/
def round_half_even (q : ℚ) : Int :=
  let f := ratFloor q
  if q - (f : ℚ) < 1 / 2 then f
  else if (1 : ℚ) / 2 < q - (f : ℚ) then f + 1
  else if f % 2 = 0 then f else f + 1

/-- Value scaled to 4 decimal places and rounded, the integer behind
Python `f"{x:.4f}"`. -/
def scaled4 (q : ℚ) : Int :=
  round_half_even (q * 10000)

/-- Decimal digit character for `d % 10`. -/
def digitChar (d : Nat) : Char :=
  Char.ofNat (48 + d % 10)

/-- Four-digit zero-padded decimal rendering of `m < 10000`. -/
def pad4 (m : Nat) : String :=
  String.mk [digitChar (m / 1000), digitChar (m / 100), digitChar (m / 10), digitChar m]

/-- Python `f"{q:.4f}"` for `q ≥ 0`: integer part, a dot, and exactly
four fractional digits. -/
def format4abs (q : ℚ) : String :=
  Nat.repr ((scaled4 q).toNat / 10000) ++ "." ++ pad4 ((scaled4 q).toNat % 10000)

/-- Python `f"{q:.4f}"`: fixed-point rendering with exactly 4 digits
after the decimal point (sign, then the rounded magnitude). -/
def format4 (q : ℚ) : String :=
  if q < 0 then "-" ++ format4abs (-q) else format4abs q

/-- Model of the pyserial handle plus the scripted test environment:
`is_open` mirrors `ser.is_open`, `writeOk` says whether `ser.write`
succeeds, `replies` scripts the byte lines returned by successive
`ser.readline()` calls (exhausted script = timeout, zero bytes), and
`written` is the transcript of lines actually written. -/
structure FakeSerial where
  is_open : Bool
  writeOk : Bool
  replies : List (List Nat)
  written : List String
deriving DecidableEq

/-- State of `PSWController` as set up by `__init__`
(`src/ver2.py` lines 14-17): `self.ser = None`, `self.target_v = 0.0`,
`self.target_i = 0.0`.  These are all the attributes the class ever
creates. -/
structure PSWController where
  ser : Option FakeSerial
  target_v : ℚ
  target_i : ℚ
deriving DecidableEq

/-- Failure taxonomy of the controller layer (names per the spec):
`notConnected` is the `RuntimeError("Serial port not open")`,
`ioError` a write fault on an open connection, `protocolError` the
`ValueError` escaping from `int(...)`/`float(...)` on a reply. -/
inductive PSWError where
  | notConnected
  | ioError
  | protocolError
deriving DecidableEq

/-- `PSWController.is_open` (`src/ver2.py` lines 41-42):
`self.ser is not None and self.ser.is_open`. -/
def is_open (c : PSWController) : Bool :=
  match c.ser with
  | none => false
  | some s => s.is_open

/-- `PSWController._write` (`src/ver2.py` lines 44-52): raise if the
port is not open, else write the command with CR+LF appended. -/
def _write (cmd : String) (c : PSWController) : Except PSWError Unit × PSWController :=
  if is_open c then
    match c.ser with
    | none => (Except.error PSWError.notConnected, c)
    | some s =>
      if s.writeOk then
        (Except.ok (), { c with ser := some { s with written := s.written ++ [cmd ++ "\r\n"] } })
      else (Except.error PSWError.ioError, c)
  else (Except.error PSWError.notConnected, c)

/-- `PSWController._readline` (`src/ver2.py` lines 54-61): raise if the
port is not open, else `ser.readline().decode("ascii", errors="ignore").strip()`
(a timeout with zero bytes gives the empty string). -/
def _readline (c : PSWController) : Except PSWError String × PSWController :=
  if is_open c then
    match c.ser with
    | none => (Except.error PSWError.notConnected, c)
    | some s =>
      match s.replies with
      | [] => (Except.ok "", c)
      | bs :: rest => (Except.ok (processLine bs), { c with ser := some { s with replies := rest } })
  else (Except.error PSWError.notConnected, c)

/-- `PSWController.query` (`src/ver2.py` lines 63-68): write the
command, then read one reply line. -/
def query (cmd : String) (c : PSWController) : Except PSWError String × PSWController :=
  match _write cmd c with
  | (Except.error e, c') => (Except.error e, c')
  | (Except.ok _, c') => _readline c'

/-- `PSWController.get_idn` (`src/ver2.py` lines 71-72). -/
def get_idn (c : PSWController) : Except PSWError String × PSWController :=
  query "*IDN?" c

/-- `PSWController.apply_vi` (`src/ver2.py` lines 74-78):
`self._write(f"APPLy {self.target_v:.4f},{self.target_i:.4f}")`. -/
def apply_vi (c : PSWController) : Except PSWError Unit × PSWController :=
  _write ("APPLy " ++ format4 c.target_v ++ "," ++ format4 c.target_i) c

/-- `PSWController.set_voltage` (`src/ver2.py` lines 80-82): assign
`self.target_v = v`, then `self.apply_vi()`. -/
def set_voltage (v : ℚ) (c : PSWController) : Except PSWError Unit × PSWController :=
  apply_vi { c with target_v := v }

/-- `PSWController.set_current` (`src/ver2.py` lines 84-86): assign
`self.target_i = i`, then `self.apply_vi()`. -/
def set_current (i : ℚ) (c : PSWController) : Except PSWError Unit × PSWController :=
  apply_vi { c with target_i := i }

/-- `PSWController.output_on` (`src/ver2.py` lines 88-89). -/
def output_on (c : PSWController) : Except PSWError Unit × PSWController :=
  _write "OUTPut:STATe ON" c

/-- `PSWController.output_off` (`src/ver2.py` lines 91-92). -/
def output_off (c : PSWController) : Except PSWError Unit × PSWController :=
  _write "OUTPut:STATe OFF" c

/-- Pure reply-parsing core of `PSWController.measure_all`
(`src/ver2.py` lines 99-106): `v_str, i_str = reply.split(",")` needs
exactly two fields, each parsed by `float`; the `except Exception`
around the whole block turns any failure into `(None, None)`. -/
def measureParse (reply : String) : Option ℚ × Option ℚ :=
  match splitOnComma reply with
  | [v_str, i_str] =>
    match pyFloat v_str, pyFloat i_str with
    | some v, some i => (some v, some i)
    | _, _ => (none, none)
  | _ => (none, none)

/-- `PSWController.measure_all` (`src/ver2.py` lines 94-106): query
`MEASure:SCALar:ALL?`, then return `(v, i, reply)` on a two-float
reply and `(None, None, reply)` on any parse failure. -/
def measure_all (c : PSWController) :
    Except PSWError (Option ℚ × Option ℚ × String) × PSWController :=
  match query "MEASure:SCALar:ALL?" c with
  | (Except.error e, c') => (Except.error e, c')
  | (Except.ok reply, c') =>
    (Except.ok ((measureParse reply).1, (measureParse reply).2, reply), c')

/-- `PSWController.set_remote` (`src/ver2.py` lines 109-117). -/
def set_remote (remote : Bool) (c : PSWController) : Except PSWError Unit × PSWController :=
  if remote then _write "SYSTem:REMote" c else _write "SYSTem:LOCal" c

/-- `PSWController.set_ovp` (`src/ver2.py` lines 120-124):
`self._write(f"SOURce:VOLTage:PROTection:LEVel {v:.4f}")`. -/
def set_ovp (v : ℚ) (c : PSWController) : Except PSWError Unit × PSWController :=
  _write ("SOURce:VOLTage:PROTection:LEVel " ++ format4 v) c

/-- `PSWController.get_ovp` (`src/ver2.py` lines 126-128): query the
level and parse it with `float` (`ValueError` = `protocolError`). -/
def get_ovp (c : PSWController) : Except PSWError ℚ × PSWController :=
  match query "SOURce:VOLTage:PROTection:LEVel?" c with
  | (Except.error e, c') => (Except.error e, c')
  | (Except.ok reply, c') =>
    match pyFloat reply with
    | some v => (Except.ok v, c')
    | none => (Except.error PSWError.protocolError, c')

/-- `PSWController.disable_ovp` (`src/ver2.py` lines 130-134): a single
`_write` of the level command with the symbolic MAX token; no other
attribute of the object is touched. -/
def disable_ovp (c : PSWController) : Except PSWError Unit × PSWController :=
  _write "SOURce:VOLTage:PROTection:LEVel MAX" c

/-- `PSWController.set_ocp` (`src/ver2.py` lines 136-140). -/
def set_ocp (i : ℚ) (c : PSWController) : Except PSWError Unit × PSWController :=
  _write ("SOURce:CURRent:PROTection:LEVel " ++ format4 i) c

/-- `PSWController.get_ocp` (`src/ver2.py` lines 142-144). -/
def get_ocp (c : PSWController) : Except PSWError ℚ × PSWController :=
  match query "SOURce:CURRent:PROTection:LEVel?" c with
  | (Except.error e, c') => (Except.error e, c')
  | (Except.ok reply, c') =>
    match pyFloat reply with
    | some v => (Except.ok v, c')
    | none => (Except.error PSWError.protocolError, c')

/-- `PSWController.disable_ocp` (`src/ver2.py` lines 146-150). -/
def disable_ocp (c : PSWController) : Except PSWError Unit × PSWController :=
  _write "SOURce:CURRent:PROTection:LEVel MAX" c

/-- `PSWController.get_protection_status` (`src/ver2.py` lines 152-160):
`s = int(self.query("STATus:QUEStionable:CONDition?"))`, then
`ov = bool(s & 1)`, `oc = bool(s & 2)`, returning `(ov, oc, s)`.
A reply `int` cannot parse raises `ValueError` (= `protocolError`). -/
def get_protection_status (c : PSWController) :
    Except PSWError (Bool × Bool × Int) × PSWController :=
  match query "STATus:QUEStionable:CONDition?" c with
  | (Except.error e, c') => (Except.error e, c')
  | (Except.ok reply, c') =>
    match pyInt reply with
    | none => (Except.error PSWError.protocolError, c')
    | some s => (Except.ok (Int.land s 1 != 0, Int.land s 2 != 0, s), c')

/-- Transcript of lines written to the transport (observation helper). -/
def writtenOf (c : PSWController) : List String :=
  match c.ser with
  | none => []
  | some s => s.written

/-- Whether the next transport write would succeed (observation helper
on the fake environment). -/
def writeOk (c : PSWController) : Bool :=
  match c.ser with
  | none => false
  | some s => s.writeOk

/-- Scripted reply lines still pending (observation helper). -/
def repliesOf (c : PSWController) : List (List Nat) :=
  match c.ser with
  | none => []
  | some s => s.replies

/-- Last line transmitted, if any (observation helper). -/
def lastWritten (c : PSWController) : Option String :=
  (writtenOf c).getLast?

/-- Processed text of the next pending reply line, empty on an empty
script (observation helper). -/
def headReplyLine (c : PSWController) : String :=
  match repliesOf c with
  | [] => ""
  | bs :: _ => processLine bs

/-- Value predicted by reading the receive contract literally as "the
accumulated bytes decoded permissively with (only) trailing whitespace
stripped"; stated from the spec's words, for comparison with
`_readline`, which uses Python `str.strip()` and hence also removes
leading whitespace. -/
def trailingStrippedValue (bs : List Nat) : String :=
  String.mk ((decodeAsciiIgnore bs).reverse.dropWhile pyIsSpaceChar).reverse

/-- A freshly constructed controller (`__init__` state): no serial
handle, both setpoints 0. -/
def pswClosed : PSWController :=
  { ser := none, target_v := 0, target_i := 0 }

/-- An open controller with a healthy transport and no scripted
replies. -/
def pswOpen : PSWController :=
  { ser := some { is_open := true, writeOk := true, replies := [], written := [] },
    target_v := 0, target_i := 0 }

/-- An open controller about to receive the measurement reply
`"12.3400,0.5000"`. -/
def pswMeas : PSWController :=
  { ser := some
      { is_open := true, writeOk := true,
        replies := [asciiBytes "12.3400,0.5000"], written := [] },
    target_v := 0, target_i := 0 }

/-- An open controller with nonzero setpoints (a prior OVP/OCP
threshold state), used for the disable operations. -/
def pswOvp : PSWController :=
  { ser := some { is_open := true, writeOk := true, replies := [], written := [] },
    target_v := 7, target_i := 2 }

/-- An open controller about to receive the questionable-condition
reply `"3"` (bytes `[51]`). -/
def pswProt3 : PSWController :=
  { ser := some { is_open := true, writeOk := true, replies := [[51]], written := [] },
    target_v := 0, target_i := 0 }

/-- An open controller about to receive the unparseable
questionable-condition reply `"ERR"` (bytes `[69, 82, 82]`). -/
def pswProtErr : PSWController :=
  { ser := some { is_open := true, writeOk := true, replies := [[69, 82, 82]], written := [] },
    target_v := 0, target_i := 0 }

/-- An open controller whose next read returns the bytes
`b" X\r\n"` — a line with leading whitespace. -/
def pswSpace : PSWController :=
  { ser := some { is_open := true, writeOk := true, replies := [[32, 88, 13, 10]], written := [] },
    target_v := 0, target_i := 0 }

/-- An open controller whose transport echoes back, on the level query,
the 4-decimal text of the value just set (the round-trip scenario). -/
def pswEcho : PSWController :=
  { ser := some
      { is_open := true, writeOk := true,
        replies := [asciiBytes (format4 15)], written := [] },
    target_v := 0, target_i := 0 }

/-! ### General lemmas about the transport layer -/

/-- A controller that is open and whose next write succeeds carries a
serial handle with both flags set. -/
lemma open_shape {c : PSWController} (h1 : is_open c = true) (h2 : writeOk c = true) :
    ∃ rs ws, c.ser = some ⟨true, true, rs, ws⟩ := by
  match hser : c.ser with
  | none => simp [is_open, hser] at h1
  | some s =>
    have ho : s.is_open = true := by simpa [is_open, hser] using h1
    have hw : s.writeOk = true := by simpa [writeOk, hser] using h2
    refine ⟨s.replies, s.written, ?_⟩
    cases s
    simp_all

/-- A controller that is open carries a serial handle with its open
flag set. -/
lemma open_shape' {c : PSWController} (h1 : is_open c = true) :
    ∃ wk rs ws, c.ser = some ⟨true, wk, rs, ws⟩ := by
  match hser : c.ser with
  | none => simp [is_open, hser] at h1
  | some s =>
    have ho : s.is_open = true := by simpa [is_open, hser] using h1
    refine ⟨s.writeOk, s.replies, s.written, ?_⟩
    cases s
    simp_all

/-- Computation rule: `_write` on an open, healthy handle appends the
CR+LF-terminated line to the transcript. -/
lemma write_open (cmd : String) (rs : List (List Nat)) (ws : List String) (tv ti : ℚ) :
    _write cmd ⟨some ⟨true, true, rs, ws⟩, tv, ti⟩ =
      (Except.ok (), ⟨some ⟨true, true, rs, ws ++ [cmd ++ "\r\n"]⟩, tv, ti⟩) := rfl

/-- Computation rule: `_readline` on an open handle with an exhausted
reply script returns the empty string (read timeout, zero bytes). -/
lemma readline_open_nil (wk : Bool) (ws : List String) (tv ti : ℚ) :
    _readline ⟨some ⟨true, wk, [], ws⟩, tv, ti⟩ =
      (Except.ok "", ⟨some ⟨true, wk, [], ws⟩, tv, ti⟩) := rfl

/-- Computation rule: `_readline` on an open handle consumes the next
scripted byte line and returns it decoded and stripped. -/
lemma readline_open_cons (wk : Bool) (bs : List Nat) (rs : List (List Nat))
    (ws : List String) (tv ti : ℚ) :
    _readline ⟨some ⟨true, wk, bs :: rs, ws⟩, tv, ti⟩ =
      (Except.ok (processLine bs), ⟨some ⟨true, wk, rs, ws⟩, tv, ti⟩) := rfl

/-- On a controller that is not open, `_write` raises `notConnected`
and leaves the state untouched. -/
lemma write_not_open (cmd : String) {c : PSWController} (h : is_open c = false) :
    _write cmd c = (Except.error PSWError.notConnected, c) := by
  unfold _write
  rw [h]
  rfl

/-- On a controller that is not open, `_readline` raises
`notConnected` and leaves the state untouched. -/
lemma readline_not_open {c : PSWController} (h : is_open c = false) :
    _readline c = (Except.error PSWError.notConnected, c) := by
  unfold _readline
  rw [h]
  rfl

/-- On a controller that is not open, `query` raises `notConnected`
and leaves the state untouched. -/
lemma query_not_open (cmd : String) {c : PSWController} (h : is_open c = false) :
    query cmd c = (Except.error PSWError.notConnected, c) := by
  unfold query
  rw [write_not_open cmd h]

/-- `_write` never changes the mirrored voltage setpoint. -/
lemma write_target_v (cmd : String) (c : PSWController) :
    ((_write cmd c).2).target_v = c.target_v := by
  unfold _write
  split
  · split
    · rfl
    · split <;> rfl
  · rfl

/-- `_write` never changes the mirrored current setpoint. -/
lemma write_target_i (cmd : String) (c : PSWController) :
    ((_write cmd c).2).target_i = c.target_i := by
  unfold _write
  split
  · split
    · rfl
    · split <;> rfl
  · rfl

/-! ### Lemmas about the 4-decimal formatter -/

/-- Characters produced by `digitChar` are decimal digits. -/
lemma digitChar_isDigit (d : Nat) : (digitChar d).isDigit = true := by
  have h10 : d % 10 = 0 ∨ d % 10 = 1 ∨ d % 10 = 2 ∨ d % 10 = 3 ∨ d % 10 = 4 ∨
      d % 10 = 5 ∨ d % 10 = 6 ∨ d % 10 = 7 ∨ d % 10 = 8 ∨ d % 10 = 9 := by omega
  unfold digitChar
  rcases h10 with h | h | h | h | h | h | h | h | h | h <;> rw [h] <;> decide

/-- The padded fractional block has exactly four characters. -/
lemma pad4_length (m : Nat) : (pad4 m).length = 4 := rfl

/-- The padded fractional block consists of decimal digits only. -/
lemma pad4_digits (m : Nat) : (pad4 m).data.all Char.isDigit = true := by
  simp [pad4, digitChar_isDigit]

/-- A nonnegative value formats as an integer part, a dot, and exactly
four decimal digits. -/
lemma format4_shape (q : ℚ) (hq : 0 ≤ q) :
    ∃ a b, format4 q = a ++ "." ++ b ∧ b.length = 4 ∧ b.data.all Char.isDigit = true := by
  refine ⟨Nat.repr ((scaled4 q).toNat / 10000), pad4 ((scaled4 q).toNat % 10000), ?_,
    pad4_length _, pad4_digits _⟩
  unfold format4
  rw [if_neg (not_lt.2 hq)]
  rfl

/-- Evaluation rule for `scaled4` at values that are exact 4-decimal
fixed-point numbers. -/
lemma scaled4_eq (q : ℚ) (z : Int) (h : q * 10000 = (z : ℚ)) : scaled4 q = z := by
  have hf : ratFloor ((z : ℚ)) = z := by
    unfold ratFloor
    rw [Rat.intCast_num, Rat.intCast_den]
    exact Int.ediv_one z
  unfold scaled4 round_half_even
  rw [h, hf]
  rw [if_pos (by norm_num : (z : ℚ) - (z : ℚ) < 1 / 2)]

/-- Python formats 15.0 at 4 decimal places as `15.0000`. -/
lemma format4_fifteen : format4 15 = "15.0000" := by
  have h : scaled4 15 = 150000 := scaled4_eq 15 150000 (by norm_num)
  unfold format4 format4abs
  rw [if_neg (by norm_num : ¬ (15 : ℚ) < 0), h]
  rfl

/-- Computation rule: `query` on an open, healthy handle with a pending
reply line transmits the command and returns the processed reply. -/
lemma query_open (cmd : String) (bs : List Nat) (rs : List (List Nat)) (ws : List String)
    (tv ti : ℚ) :
    query cmd ⟨some ⟨true, true, bs :: rs, ws⟩, tv, ti⟩ =
      (Except.ok (processLine bs), ⟨some ⟨true, true, rs, ws ++ [cmd ++ "\r\n"]⟩, tv, ti⟩) := rfl

/-- Computation rule: `query` on an open, healthy handle with no pending
reply transmits the command and returns the empty string (timeout). -/
lemma query_open_nil (cmd : String) (ws : List String) (tv ti : ℚ) :
    query cmd ⟨some ⟨true, true, [], ws⟩, tv, ti⟩ =
      (Except.ok "", ⟨some ⟨true, true, [], ws ++ [cmd ++ "\r\n"]⟩, tv, ti⟩) := rfl

/-- Computation rule: `measure_all` on an open, healthy handle with a
pending reply returns the parsed fields and the raw reply. -/
lemma measure_open_cons (bs : List Nat) (rs : List (List Nat)) (ws : List String) (tv ti : ℚ) :
    measure_all ⟨some ⟨true, true, bs :: rs, ws⟩, tv, ti⟩ =
      (Except.ok ((measureParse (processLine bs)).1, (measureParse (processLine bs)).2,
          processLine bs),
        ⟨some ⟨true, true, rs, ws ++ ["MEASure:SCALar:ALL?\r\n"]⟩, tv, ti⟩) := rfl

/-- Computation rule: `measure_all` on an open, healthy handle with no
pending reply sees the empty reply and still returns normally. -/
lemma measure_open_nil (ws : List String) (tv ti : ℚ) :
    measure_all ⟨some ⟨true, true, [], ws⟩, tv, ti⟩ =
      (Except.ok ((measureParse "").1, (measureParse "").2, ""),
        ⟨some ⟨true, true, [], ws ++ ["MEASure:SCALar:ALL?\r\n"]⟩, tv, ti⟩) := rfl

/-- Computation rule: `get_protection_status` when the reply parses as
the integer `s` decodes the two low mask bits of `s`. -/
lemma gps_open_parse (bs : List Nat) (rs : List (List Nat)) (ws : List String) (tv ti : ℚ)
    (s : Int) (h : pyInt (processLine bs) = some s) :
    (get_protection_status ⟨some ⟨true, true, bs :: rs, ws⟩, tv, ti⟩).1 =
      Except.ok (Int.land s 1 != 0, Int.land s 2 != 0, s) := by
  unfold get_protection_status
  rw [query_open]
  dsimp only
  rw [h]

/-- Computation rule: `get_protection_status` when the reply does not
parse as an integer fails with `protocolError`. -/
lemma gps_open_fail (bs : List Nat) (rs : List (List Nat)) (ws : List String) (tv ti : ℚ)
    (h : pyInt (processLine bs) = none) :
    (get_protection_status ⟨some ⟨true, true, bs :: rs, ws⟩, tv, ti⟩).1 =
      Except.error PSWError.protocolError := by
  unfold get_protection_status
  rw [query_open]
  dsimp only
  rw [h]

/-- Python `bool(s & 1)` on a nonnegative integer is bit 0 of its
magnitude. -/
lemma land1_testBit (n : Nat) : (Int.land (Int.ofNat n) 1 != 0) = n.testBit 0 := by
  have h1 : Int.land (Int.ofNat n) 1 = Int.ofNat (n &&& 1) := rfl
  rw [h1, Nat.and_one_is_mod, Nat.testBit_zero]
  rcases Nat.mod_two_eq_zero_or_one n with h | h <;> rw [h] <;> rfl

/-- Python `bool(s & 2)` on a nonnegative integer is bit 1 of its
magnitude. -/
lemma land2_testBit (n : Nat) : (Int.land (Int.ofNat n) 2 != 0) = n.testBit 1 := by
  have h1 : Int.land (Int.ofNat n) 2 = Int.ofNat (n &&& 2) := rfl
  have h2 : n &&& 2 = (n.testBit 1).toNat * 2 := by simpa using Nat.and_two_pow n 1
  rw [h1, h2]
  cases n.testBit 1 <;> rfl

/-! ### Claim theorems -/

/-- C1: for every pair of non-negative values (v, i), calling
`set_voltage(v)` and then `set_current(i)` on an open controller (with
a healthy transport) succeeds, makes the last transmitted command the
combined APPLY command encoding both v and i, each formatted with
exactly 4 digits after the decimal point, and leaves the mirrored
setpoint state `(target_v, target_i)` equal to `(v, i)`. -/
theorem C1_apply_combined (c : PSWController) (v i : ℚ) (hv : 0 ≤ v) (hi : 0 ≤ i)
    (ho : is_open c = true) (hw : writeOk c = true) :
    (set_voltage v c).1 = Except.ok () ∧
    (set_current i (set_voltage v c).2).1 = Except.ok () ∧
    lastWritten (set_current i (set_voltage v c).2).2 =
      some ("APPLy " ++ format4 v ++ "," ++ format4 i ++ "\r\n") ∧
    ((set_current i (set_voltage v c).2).2).target_v = v ∧
    ((set_current i (set_voltage v c).2).2).target_i = i ∧
    (∃ a b, format4 v = a ++ "." ++ b ∧ b.length = 4 ∧ b.data.all Char.isDigit = true) ∧
    (∃ a b, format4 i = a ++ "." ++ b ∧ b.length = 4 ∧ b.data.all Char.isDigit = true) := by
  obtain ⟨rs, ws, hser⟩ := open_shape ho hw
  obtain ⟨sv, tv, ti⟩ := c
  dsimp at hser
  subst hser
  have hstep : set_current i
      (set_voltage v (⟨some ⟨true, true, rs, ws⟩, tv, ti⟩ : PSWController)).2 =
      (Except.ok (), ⟨some ⟨true, true, rs,
        (ws ++ ["APPLy " ++ format4 v ++ "," ++ format4 ti ++ "\r\n"]) ++
          ["APPLy " ++ format4 v ++ "," ++ format4 i ++ "\r\n"]⟩, v, i⟩) := rfl
  refine ⟨rfl, by rw [hstep], ?_, by rw [hstep], by rw [hstep],
    format4_shape v hv, format4_shape i hi⟩
  rw [hstep]
  exact List.getLast?_concat _

/-- C1 witness: the theorem instantiated at an open controller and the
setpoints (5, 1). -/
theorem C1_apply_combined_witness :
    lastWritten (set_current 1 (set_voltage 5 pswOpen).2).2 =
      some ("APPLy " ++ format4 5 ++ "," ++ format4 1 ++ "\r\n") :=
  (C1_apply_combined pswOpen 5 1 (by decide) (by decide) rfl rfl).2.2.1

/-- C2: on an open controller with a healthy transport, `measure_all`
never raises: whatever the next reply line is, it returns
`Except.ok` carrying the parse of the reply (the two floats when the
reply has the shape `"<float>,<float>"`, unknown = `none` fields
otherwise) together with the untouched raw reply; in particular the
reply `"12.3400,0.5000"` parses to voltage 12.34 = 617/50 and current
0.5 = 1/2, while `"ERR"` parses to `(none, none)`. -/
theorem C2_measure_never_raises (c : PSWController)
    (ho : is_open c = true) (hw : writeOk c = true) :
    (∃ c', measure_all c =
      (Except.ok ((measureParse (headReplyLine c)).1, (measureParse (headReplyLine c)).2,
        headReplyLine c), c')) ∧
    measureParse "12.3400,0.5000" = (some (617 / 50 : ℚ), some (1 / 2 : ℚ)) ∧
    measureParse "ERR" = (none, none) := by
  refine ⟨?_, ?_, rfl⟩
  · obtain ⟨rs, ws, hser⟩ := open_shape ho hw
    obtain ⟨sv, tv, ti⟩ := c
    dsimp at hser
    subst hser
    cases rs with
    | nil =>
      exact ⟨⟨some ⟨true, true, [], ws ++ ["MEASure:SCALar:ALL?\r\n"]⟩, tv, ti⟩,
        measure_open_nil ws tv ti⟩
    | cons bs rest =>
      exact ⟨⟨some ⟨true, true, rest, ws ++ ["MEASure:SCALar:ALL?\r\n"]⟩, tv, ti⟩,
        measure_open_cons bs rest ws tv ti⟩
  · have h1 : measureParse "12.3400,0.5000" =
        (some (ratOfParts (false, 123400, 4, 0)), some (ratOfParts (false, 5000, 4, 0))) := rfl
    rw [h1]
    norm_num [ratOfParts, tenPow]

/-- C2 witness: the theorem instantiated at an open controller about to
receive `"12.3400,0.5000"`. -/
theorem C2_measure_never_raises_witness :
    measureParse "12.3400,0.5000" = (some (617 / 50 : ℚ), some (1 / 2 : ℚ)) :=
  (C2_measure_never_raises pswMeas rfl rfl).2.1

/-- C3: every command operation of the controller — `set_voltage`,
`set_current`, `output_on`, `output_off`, `get_idn` (identify),
`measure_all`, `get_protection_status`, `set_remote`, `set_ovp`,
`get_ovp`, `disable_ovp`, `set_ocp`, `get_ocp`, `disable_ocp` —
invoked while `is_open() == false` fails with the not-connected error
and performs no transport write (and, except for the setpoint-field
assignments of `set_voltage`/`set_current`, leaves the state
untouched). -/
theorem C3_not_open_fails (c : PSWController) (v i ov oc : ℚ) (r : Bool)
    (h : is_open c = false) :
    ((set_voltage v c).1 = Except.error PSWError.notConnected ∧
      writtenOf (set_voltage v c).2 = writtenOf c) ∧
    ((set_current i c).1 = Except.error PSWError.notConnected ∧
      writtenOf (set_current i c).2 = writtenOf c) ∧
    output_on c = (Except.error PSWError.notConnected, c) ∧
    output_off c = (Except.error PSWError.notConnected, c) ∧
    get_idn c = (Except.error PSWError.notConnected, c) ∧
    measure_all c = (Except.error PSWError.notConnected, c) ∧
    get_protection_status c = (Except.error PSWError.notConnected, c) ∧
    set_remote r c = (Except.error PSWError.notConnected, c) ∧
    set_ovp ov c = (Except.error PSWError.notConnected, c) ∧
    get_ovp c = (Except.error PSWError.notConnected, c) ∧
    disable_ovp c = (Except.error PSWError.notConnected, c) ∧
    set_ocp oc c = (Except.error PSWError.notConnected, c) ∧
    get_ocp c = (Except.error PSWError.notConnected, c) ∧
    disable_ocp c = (Except.error PSWError.notConnected, c) := by
  have hsv : set_voltage v c =
      (Except.error PSWError.notConnected, { c with target_v := v }) :=
    write_not_open _ (c := { c with target_v := v }) h
  have hsc : set_current i c =
      (Except.error PSWError.notConnected, { c with target_i := i }) :=
    write_not_open _ (c := { c with target_i := i }) h
  refine ⟨⟨by rw [hsv], by rw [hsv]; rfl⟩, ⟨by rw [hsc], by rw [hsc]; rfl⟩,
    write_not_open _ h, write_not_open _ h, query_not_open _ h, ?_, ?_, ?_,
    write_not_open _ h, ?_, write_not_open _ h, write_not_open _ h, ?_,
    write_not_open _ h⟩
  · unfold measure_all
    rw [query_not_open _ h]
  · unfold get_protection_status
    rw [query_not_open _ h]
  · cases r
    · exact write_not_open _ h
    · exact write_not_open _ h
  · unfold get_ovp
    rw [query_not_open _ h]
  · unfold get_ocp
    rw [query_not_open _ h]

/-- C3 witness: the theorem instantiated at a freshly constructed
(closed) controller. -/
theorem C3_not_open_fails_witness :
    output_on pswClosed = (Except.error PSWError.notConnected, pswClosed) :=
  (C3_not_open_fails pswClosed 5 1 15 2 true rfl).2.2.1

/-- C4 counterexample: on a closed controller with `target_v = 0`,
`set_voltage(5)` fails because the transmit fails, yet the mirrored
setpoint state is NOT left unchanged: `target_v` has become 5.  This
refutes the claim that setpoint mutations commit only if the transmit
call does not fail (the assignment `self.target_v = v` precedes
`self.apply_vi()` in the source). -/
theorem C4_commit_counterexample :
    is_open pswClosed = false ∧
    pswClosed.target_v = 0 ∧
    (set_voltage 5 pswClosed).1 = Except.error PSWError.notConnected ∧
    ((set_voltage 5 pswClosed).2).target_v = 5 :=
  ⟨rfl, rfl, rfl, rfl⟩

/-- C4 (amended): if `set_voltage(v)` fails because the transmit fails,
the controller is left with `target_v = v` — the setpoint mutation
precedes the transmit and is not rolled back — while the other axis
`target_i` is unchanged; symmetrically for `set_current(i)`. -/
theorem C4_mutation_precedes_transmit (c : PSWController) (v i : ℚ) :
    ((∃ e, (set_voltage v c).1 = Except.error e) →
      ((set_voltage v c).2).target_v = v ∧
      ((set_voltage v c).2).target_i = c.target_i) ∧
    ((∃ e, (set_current i c).1 = Except.error e) →
      ((set_current i c).2).target_i = i ∧
      ((set_current i c).2).target_v = c.target_v) := by
  constructor
  · intro _
    constructor
    · simp only [set_voltage, apply_vi]
      rw [write_target_v]
    · simp only [set_voltage, apply_vi]
      rw [write_target_i]
  · intro _
    constructor
    · simp only [set_current, apply_vi]
      rw [write_target_i]
    · simp only [set_current, apply_vi]
      rw [write_target_v]

/-- C4 witness: the amended theorem instantiated at a closed
controller, whose transmit does fail. -/
theorem C4_mutation_precedes_transmit_witness :
    ((set_voltage 5 pswClosed).2).target_v = 5 ∧
    ((set_voltage 5 pswClosed).2).target_i = pswClosed.target_i :=
  (C4_mutation_precedes_transmit pswClosed 5 1).1 ⟨PSWError.notConnected, rfl⟩

/-- C5: whenever the questionable-condition query returns (a reply that
parses as) the unsigned integer n, `get_protection_status` on an open
controller decodes over-voltage as bit 0 of n and over-current as bit 1
of n, ignoring all other bits, and returns n itself unchanged as the
raw value. -/
theorem C5_protection_decode (c : PSWController) (n : Nat) (bs : List Nat)
    (rest : List (List Nat)) (ho : is_open c = true) (hw : writeOk c = true)
    (hrep : repliesOf c = bs :: rest)
    (hparse : pyInt (processLine bs) = some (Int.ofNat n)) :
    (get_protection_status c).1 = Except.ok (n.testBit 0, n.testBit 1, Int.ofNat n) := by
  obtain ⟨rs, ws, hser⟩ := open_shape ho hw
  obtain ⟨sv, tv, ti⟩ := c
  dsimp at hser
  subst hser
  simp only [repliesOf] at hrep
  subst hrep
  rw [gps_open_parse bs rest ws tv ti (Int.ofNat n) hparse, land1_testBit, land2_testBit]

/-- C5 witness: the theorem instantiated at reply `"3"`, which decodes
to both protections tripped with raw value 3. -/
theorem C5_protection_decode_witness :
    (get_protection_status pswProt3).1 = Except.ok (true, true, Int.ofNat 3) := by
  have h := C5_protection_decode pswProt3 3 [51] [] rfl rfl rfl (by decide)
  have h0 : Nat.testBit 3 0 = true := by decide
  have h1 : Nat.testBit 3 1 = true := by decide
  rw [h, h0, h1]

/-- C6 counterexample: on a concrete open controller with prior
setpoint state (7, 2), `disable_ovp()` transmits the MAX sentinel but
changes nothing else in the controller state: the full post-state is
exhibited, and it differs from the pre-state only in the transcript of
written lines.  The controller state (per `__init__`: `ser`,
`target_v`, `target_i`) has no `ovp_enabled` field, so the claimed
"sets the controller's ovp_enabled flag to false" has no state change
to correspond to — no controller attribute is mutated at all. -/
theorem C6_no_enable_flag_counterexample :
    disable_ovp pswOvp =
      (Except.ok (),
        { ser := some
            { is_open := true, writeOk := true, replies := [],
              written := ["SOURce:VOLTage:PROTection:LEVel MAX\r\n"] },
          target_v := 7, target_i := 2 }) ∧
    ((disable_ovp pswOvp).2).target_v = pswOvp.target_v ∧
    ((disable_ovp pswOvp).2).target_i = pswOvp.target_i ∧
    (disable_ocp pswOvp).2 =
      { ser := some
          { is_open := true, writeOk := true, replies := [],
            written := ["SOURce:CURRent:PROTection:LEVel MAX\r\n"] },
        target_v := 7, target_i := 2 } :=
  ⟨rfl, rfl, rfl, rfl⟩

/-- C6 (amended): on every open controller with a healthy transport,
`disable_ovp()` transmits the protection-level command with the
symbolic MAX token (a fixed string, never a numeric value, regardless
of any previously set threshold or setpoint state) and likewise
`disable_ocp()`; the controller mirrors no `ovp_enabled`/`ocp_enabled`
flag — its only attributes are `ser`, `target_v`, `target_i`, and the
two setpoint fields are left unchanged. -/
theorem C6_disable_sends_max (c : PSWController)
    (ho : is_open c = true) (hw : writeOk c = true) :
    (disable_ovp c).1 = Except.ok () ∧
    writtenOf (disable_ovp c).2 = writtenOf c ++ ["SOURce:VOLTage:PROTection:LEVel MAX\r\n"] ∧
    lastWritten (disable_ovp c).2 = some "SOURce:VOLTage:PROTection:LEVel MAX\r\n" ∧
    ((disable_ovp c).2).target_v = c.target_v ∧
    ((disable_ovp c).2).target_i = c.target_i ∧
    (disable_ocp c).1 = Except.ok () ∧
    writtenOf (disable_ocp c).2 = writtenOf c ++ ["SOURce:CURRent:PROTection:LEVel MAX\r\n"] ∧
    lastWritten (disable_ocp c).2 = some "SOURce:CURRent:PROTection:LEVel MAX\r\n" ∧
    ((disable_ocp c).2).target_v = c.target_v ∧
    ((disable_ocp c).2).target_i = c.target_i := by
  obtain ⟨rs, ws, hser⟩ := open_shape ho hw
  obtain ⟨sv, tv, ti⟩ := c
  dsimp at hser
  subst hser
  exact ⟨rfl, rfl, List.getLast?_concat _, rfl, rfl, rfl, rfl, List.getLast?_concat _, rfl, rfl⟩

/-- C6 witness: the amended theorem instantiated at the open controller
with prior setpoint state (7, 2). -/
theorem C6_disable_sends_max_witness :
    lastWritten (disable_ovp pswOvp).2 = some "SOURce:VOLTage:PROTection:LEVel MAX\r\n" :=
  (C6_disable_sends_max pswOvp rfl rfl).2.2.1

/-- C7: whenever the reply to the questionable-condition query does not
parse as an integer, `get_protection_status` on an open controller
fails with the protocol error (the `ValueError` raised by `int`). -/
theorem C7_protection_parse_error (c : PSWController) (bs : List Nat)
    (rest : List (List Nat)) (ho : is_open c = true) (hw : writeOk c = true)
    (hrep : repliesOf c = bs :: rest)
    (hbad : pyInt (processLine bs) = none) :
    (get_protection_status c).1 = Except.error PSWError.protocolError := by
  obtain ⟨rs, ws, hser⟩ := open_shape ho hw
  obtain ⟨sv, tv, ti⟩ := c
  dsimp at hser
  subst hser
  simp only [repliesOf] at hrep
  subst hrep
  exact gps_open_fail bs rest ws tv ti hbad

/-- C7 witness: the theorem instantiated at the unparseable reply
`"ERR"`. -/
theorem C7_protection_parse_error_witness :
    (get_protection_status pswProtErr).1 = Except.error PSWError.protocolError :=
  C7_protection_parse_error pswProtErr [69, 82, 82] [] rfl rfl rfl (by decide)

/-- C8 counterexample: for the byte sequence `b" X\r\n"` read on an
open connection, `_readline` returns `"X"`, not the accumulated bytes
with only trailing whitespace stripped (which would be `" X"`):
Python's `str.strip()` also removes leading whitespace, so the claim's
"returns exactly the accumulated bytes decoded permissively with
trailing whitespace stripped" fails on lines with leading
whitespace. -/
theorem C8_leading_whitespace_counterexample :
    is_open pswSpace = true ∧
    (_readline pswSpace).1 = Except.ok "X" ∧
    trailingStrippedValue [32, 88, 13, 10] = " X" ∧
    ("X" : String) ≠ " X" := by
  refine ⟨rfl, rfl, by decide, by decide⟩

/-- C8 (amended): `_readline` on an open connection never raises: with
no pending bytes (read timeout, zero bytes) it returns the empty
string rather than an error, and on accumulated bytes `bs` it returns
exactly `bs` decoded permissively (bytes ≥ 0x80 dropped) with leading
and trailing whitespace stripped. -/
theorem C8_readline_strips (c : PSWController) (ho : is_open c = true) :
    (repliesOf c = [] → _readline c = (Except.ok "", c)) ∧
    (∀ bs rest, repliesOf c = bs :: rest →
      (_readline c).1 = Except.ok (String.mk (stripChars (decodeAsciiIgnore bs)))) := by
  obtain ⟨wk, rs, ws, hser⟩ := open_shape' ho
  obtain ⟨sv, tv, ti⟩ := c
  dsimp at hser
  subst hser
  constructor
  · intro hnil
    simp only [repliesOf] at hnil
    subst hnil
    rfl
  · intro bs rest hcons
    simp only [repliesOf] at hcons
    subst hcons
    rfl

/-- C8 witness: the amended theorem instantiated at the scripted line
`b" X\r\n"`. -/
theorem C8_readline_strips_witness :
    (_readline pswSpace).1 =
      Except.ok (String.mk (stripChars (decodeAsciiIgnore [32, 88, 13, 10]))) :=
  (C8_readline_strips pswSpace rfl).2 [32, 88, 13, 10] [] rfl

/-- C9: on an open controller whose transport echoes back, on the level
query, the text of the value last set, `set_ovp(15)` transmits the
level command with the 4-decimal text `15.0000` and a subsequent
`get_ovp()` returns exactly 15 (the transmitted text parsed back). -/
theorem C9_ovp_round_trip (c : PSWController)
    (ho : is_open c = true) (hw : writeOk c = true)
    (hecho : repliesOf c = [asciiBytes (format4 15)]) :
    lastWritten (set_ovp 15 c).2 = some "SOURce:VOLTage:PROTection:LEVel 15.0000\r\n" ∧
    (get_ovp (set_ovp 15 c).2).1 = Except.ok 15 := by
  obtain ⟨rs, ws, hser⟩ := open_shape ho hw
  obtain ⟨sv, tv, ti⟩ := c
  dsimp at hser
  subst hser
  simp only [repliesOf] at hecho
  subst hecho
  rw [format4_fifteen]
  have h1 : set_ovp 15 (⟨some ⟨true, true, [asciiBytes "15.0000"], ws⟩, tv, ti⟩ : PSWController) =
      (Except.ok (), ⟨some ⟨true, true, [asciiBytes "15.0000"],
        ws ++ ["SOURce:VOLTage:PROTection:LEVel " ++ format4 15 ++ "\r\n"]⟩, tv, ti⟩) := rfl
  rw [format4_fifteen] at h1
  constructor
  · rw [h1]
    exact List.getLast?_concat _
  · rw [h1]
    rw [(by norm_num [ratOfParts, tenPow] : (15 : ℚ) = ratOfParts (false, 150000, 4, 0))]
    rfl

/-- C9 witness: the theorem instantiated at the echoing transport. -/
theorem C9_ovp_round_trip_witness :
    (get_ovp (set_ovp 15 pswEcho).2).1 = Except.ok 15 :=
  (C9_ovp_round_trip pswEcho rfl rfl rfl).2

/-- C10 (frame property): for every controller state, `set_current(i)`
leaves `target_v` unchanged and `set_voltage(v)` leaves `target_i`
unchanged — each setpoint operation mutates only its own axis of the
mirrored state, in every connection state and whatever the transmit
outcome. -/
theorem C10_frame_setpoints (c : PSWController) (v i : ℚ) :
    ((set_current i c).2).target_v = c.target_v ∧
    ((set_voltage v c).2).target_i = c.target_i := by
  constructor
  · simp only [set_current, apply_vi]
    rw [write_target_v]
  · simp only [set_voltage, apply_vi]
    rw [write_target_i]
